import Mathlib

/-!
Shallow embedding of `src/main.rs` of fastagi-router: a dial-plan
resolution engine for a PBX.  Numbers are modelled as `Nat` (the Rust
code uses `u64`; every value produced by normalization is below `10^11`,
far below `2^64`, so no wrap-around occurs and `Nat` is faithful; the
one place where the Rust parse can overflow, inbound parsing, checks the
bound explicitly).  The two process-wide hash maps become association
lists with exact-match lookup.  Fallible Rust functions returning
`Result<_, RouteError>` become `Except RouteError _`.
-/

deriving instance DecidableEq for Except

/-- Constant `NORMALIZED_CITY_CODE` from the source. -/
def NORMALIZED_CITY_CODE : Nat := 73843

/-- Constant `CITY_MULTIPLIER` from the source. -/
def CITY_MULTIPLIER : Nat := 1000000

/-- String constant `STATUS_SUCCESS`. -/
def STATUS_SUCCESS : String := "SUCCESS"

/-- String constant `INTERNAL_TRUE`. -/
def INTERNAL_TRUE : String := "TRUE"

/-- String constant `INTERNAL_FALSE`. -/
def INTERNAL_FALSE : String := "FALSE"

/-- Embeds `enum RouteTarget` with variants Internal(u16) and External(u64). -/
inductive RouteTarget where
  | Internal (ext : Nat)
  | External (num : Nat)
deriving DecidableEq, Repr

/-- Embeds `enum CallType` with variants Inbound and Normalized. -/
inductive CallType where
  | Inbound
  | Normalized
deriving DecidableEq, Repr

/-- Embeds `enum RouteError`. -/
inductive RouteError where
  | NoRouteFound
  | NoTrunkAvailable
  | InvalidFormat
  | ShortNumberNotMapped
deriving DecidableEq, Repr

/-- Embeds `struct AgiResponse`. -/
structure AgiResponse where
  status : String
  is_internal_dest : String
  target : RouteTarget
  outbound_trunk : Option Nat
deriving DecidableEq, Repr

/-- The static `NUMBER_MAPPING` table: canonical number → extension. -/
def NUMBER_MAPPING : List (Nat × Nat) :=
  [(79235253998, 501), (79235254061, 502), (79235254150, 503), (79235254132, 504), (79235254389, 505),
   (79235254439, 506), (79235254667, 507), (79235254706, 508), (79235255049, 509), (79235255136, 510),
   (73843602313, 501), (73843601773, 502), (73843731773, 502), (73843602414, 504), (73843601771, 506),
   (73843600912, 507), (73843600911, 508), (73843731458, 508), (73843601331, 509), (73843731313, 509),
   (73843601221, 510), (73843731500, 510), (104, 501), (135, 502), (119, 502),
   (111, 508), (106, 509), (108, 510)]

/-- The static `EXTENSION_TRUNK_MAP` table: extension → trunk number. -/
def EXTENSION_TRUNK_MAP : List (Nat × Nat) :=
  [(501, 79235253998), (502, 79235254061), (503, 79235254150), (504, 79235254132), (505, 79235254389),
   (506, 79235254439), (507, 79235254667), (508, 79235254706), (509, 79235255049), (510, 79235255136)]

/-- Exact-match lookup in `NUMBER_MAPPING` (`HashMap::get`). -/
def numberLookup (n : Nat) : Option Nat := NUMBER_MAPPING.lookup n

/-- Exact-match lookup in `EXTENSION_TRUNK_MAP` (`HashMap::get`). -/
def trunkLookup (ext : Nat) : Option Nat := EXTENSION_TRUNK_MAP.lookup ext

/-- Value of a digit-character list read left to right in base 10:
the result of the Rust `str::parse::<u64>` on an all-digit string
(no overflow occurs for the ≤ 11-digit strings the normalizer parses). -/
def digitsToNat (l : List Char) : Nat :=
  l.foldl (fun acc c => acc * 10 + (c.toNat - 48)) 0

/-- The digit sanitization step:
`raw.chars().filter(|c| c.is_ascii_digit())`. -/
def digitsOnly (raw : String) : List Char :=
  raw.data.filter Char.isDigit

/-- Embeds `fn normalize_number(raw: &str) -> Result<u64, RouteError>`:
length-dispatched normalization of the sanitized digit string. -/
def normalize_number (raw : String) : Except RouteError Nat :=
  let clean := digitsOnly raw
  match clean.length with
  | 3 => .ok (digitsToNat clean)
  | 6 => .ok (NORMALIZED_CITY_CODE * CITY_MULTIPLIER + digitsToNat clean)
  | 11 =>
    let num := digitsToNat clean
    let first_digit := num / 10000000000
    if first_digit = 7 then .ok num
    else if first_digit = 8 then .ok (70000000000 + num % 10000000000)
    else .error RouteError.InvalidFormat
  | _ => .error RouteError.InvalidFormat

/-- Embeds `fn route_inbound(trunk_number: u64) -> Option<RouteTarget>`. -/
def route_inbound (trunk_number : Nat) : Option RouteTarget :=
  (numberLookup trunk_number).map RouteTarget.Internal

/-- Embeds `fn route_normalized(num: u64, _caller_ext: u16)`. -/
def route_normalized (num : Nat) (_caller_ext : Nat) : Except RouteError RouteTarget :=
  match numberLookup num with
  | some ext => .ok (RouteTarget.Internal ext)
  | none =>
    if num < 1000 then .error RouteError.ShortNumberNotMapped
    else .ok (RouteTarget.External num)

/-- Embeds `fn make_response(target: RouteTarget, caller_ext: u16)`. -/
def make_response (target : RouteTarget) (caller_ext : Nat) : Except RouteError AgiResponse :=
  match target with
  | RouteTarget.External _ =>
    match trunkLookup caller_ext with
    | none => .error RouteError.NoTrunkAvailable
    | some trunk =>
      .ok { status := STATUS_SUCCESS, is_internal_dest := INTERNAL_FALSE
            target := target, outbound_trunk := some trunk }
  | RouteTarget.Internal _ =>
    .ok { status := STATUS_SUCCESS, is_internal_dest := INTERNAL_TRUE
          target := target, outbound_trunk := none }

/-- Embeds the Rust `str::parse::<u64>`: an optional leading `+`, then one or
more ASCII digits whose value fits in 64 bits; anything else fails. -/
def parse_u64 (s : String) : Option Nat :=
  let l := match s.data with
    | '+' :: rest => rest
    | other => other
  if l ≠ [] ∧ l.all Char.isDigit ∧ digitsToNat l < 2 ^ 64 then
    some (digitsToNat l)
  else
    none

/-- Embeds `fn dispatch_route(raw_input: &str, caller_id_ext: u16, call_type: CallType)`. -/
def dispatch_route (raw_input : String) (caller_id_ext : Nat)
    (call_type : CallType) : Except RouteError AgiResponse :=
  let targetE : Except RouteError RouteTarget :=
    match call_type with
    | CallType.Inbound =>
      match parse_u64 raw_input with
      | none => .error RouteError.InvalidFormat
      | some trunk_number =>
        match route_inbound trunk_number with
        | some t => .ok t
        | none => .error RouteError.NoRouteFound
    | CallType.Normalized =>
      match normalize_number raw_input with
      | .error e => .error e
      | .ok normalized => route_normalized normalized caller_id_ext
  match targetE with
  | .error e => .error e
  | .ok target => make_response target caller_id_ext

/-! ### Digit arithmetic lemmas -/

/-- A digit character has code point between 48 and 57. -/
theorem isDigit_toNat {c : Char} (h : c.isDigit = true) :
    48 ≤ c.toNat ∧ c.toNat ≤ 57 := by
  simp only [Char.isDigit, ge_iff_le, Bool.and_eq_true, decide_eq_true_eq] at h
  obtain ⟨h1, h2⟩ := h
  rw [UInt32.le_def, BitVec.le_def] at h1 h2
  exact ⟨h1, h2⟩

/-- A digit character is recovered from its code point. -/
theorem char_eq_ofNat {c : Char} {d : Nat} (hd : c.toNat = d) :
    c = Char.ofNat d := by
  subst hd
  exact (Char.ofNat_toNat c).symm

/-- Folding the base-10 accumulator over a list, starting from `a`. -/
theorem digits_foldl_shift (l : List Char) (a : Nat) :
    l.foldl (fun acc c => acc * 10 + (c.toNat - 48)) a
      = a * 10 ^ l.length + l.foldl (fun acc c => acc * 10 + (c.toNat - 48)) 0 := by
  induction l generalizing a with
  | nil => simp
  | cons c t ih =>
    simp only [List.foldl_cons, List.length_cons]
    rw [ih (a * 10 + (c.toNat - 48)), ih (0 * 10 + (c.toNat - 48))]
    ring

/-- Peeling the leading digit off `digitsToNat`. -/
theorem digitsToNat_cons (c : Char) (t : List Char) :
    digitsToNat (c :: t) = (c.toNat - 48) * 10 ^ t.length + digitsToNat t := by
  simp only [digitsToNat, List.foldl_cons]
  rw [digits_foldl_shift]
  ring

/-- The value of an all-digit list is below `10 ^ length`. -/
theorem digitsToNat_lt (l : List Char) (h : l.all Char.isDigit = true) :
    digitsToNat l < 10 ^ l.length := by
  induction l with
  | nil => simp [digitsToNat]
  | cons c t ih =>
    simp only [List.all_cons, Bool.and_eq_true] at h
    have hd : c.toNat - 48 ≤ 9 := by
      have := isDigit_toNat h.1
      omega
    have ht := ih h.2
    rw [digitsToNat_cons, List.length_cons]
    calc (c.toNat - 48) * 10 ^ t.length + digitsToNat t
        < ((c.toNat - 48) + 1) * 10 ^ t.length := by
          have := Nat.pos_pow_of_pos t.length (by norm_num : 0 < 10)
          nlinarith
      _ ≤ 10 * 10 ^ t.length := by
          exact Nat.mul_le_mul_right _ (by omega)
      _ = 10 ^ (t.length + 1) := by ring

/-- Quotient and remainder of an 11-digit value by `10 ^ 10` recover the
leading digit and the 10-digit tail. -/
theorem digitsToNat_head (c : Char) (t : List Char)
    (ht : t.all Char.isDigit = true) (hl : t.length = 10) :
    digitsToNat (c :: t) / 10000000000 = c.toNat - 48 ∧
    digitsToNat (c :: t) % 10000000000 = digitsToNat t := by
  have hb := digitsToNat_lt t ht
  rw [hl] at hb
  rw [digitsToNat_cons, hl]
  norm_num at hb ⊢
  omega

/-! ### Case equations for `normalize_number` on all-digit input -/

/-- Sanitization is the identity on all-digit strings. -/
theorem digitsOnly_of_all (s : String) (h : s.data.all Char.isDigit = true) :
    digitsOnly s = s.data := by
  simp only [digitsOnly]
  exact List.filter_eq_self.mpr (by simpa using h)

/-- The length of a string is the length of its character list. -/
theorem string_length_data (s : String) : s.length = s.data.length := by
  cases s
  rfl

/-- Three sanitized digits pass through as their numeric value. -/
theorem normalize_len3 (s : String) (hall : s.data.all Char.isDigit = true)
    (h3 : s.data.length = 3) : normalize_number s = .ok (digitsToNat s.data) := by
  have hd := digitsOnly_of_all s hall
  unfold normalize_number
  rw [hd]
  dsimp only
  rw [h3]

/-- Six sanitized digits gain the fixed city-code prefix `73843`. -/
theorem normalize_len6 (s : String) (hall : s.data.all Char.isDigit = true)
    (h6 : s.data.length = 6) :
    normalize_number s = .ok (73843000000 + digitsToNat s.data) := by
  have hd := digitsOnly_of_all s hall
  unfold normalize_number
  rw [hd]
  dsimp only
  rw [h6]
  norm_num [NORMALIZED_CITY_CODE, CITY_MULTIPLIER]

/-- Eleven sanitized digits with leading `7` pass through. -/
theorem normalize_len11_lead7 (s : String) (t : List Char)
    (heq : s.data = '7' :: t) (hall : s.data.all Char.isDigit = true)
    (h11 : s.data.length = 11) :
    normalize_number s = .ok (digitsToNat s.data) := by
  have hd := digitsOnly_of_all s hall
  rw [heq] at hall
  simp only [List.all_cons, Bool.and_eq_true] at hall
  have htl : t.length = 10 := by
    rw [heq] at h11
    simpa using h11
  have hq7 : digitsToNat ('7' :: t) / 10000000000 = 7 := by
    rw [(digitsToNat_head '7' t hall.2 htl).1]
    decide
  unfold normalize_number
  rw [hd]
  dsimp only
  rw [h11]
  dsimp only
  rw [heq, hq7]
  norm_num

/-- Eleven sanitized digits with leading `8`: the leading digit is
replaced by `7`, the ten-digit tail is kept. -/
theorem normalize_len11_lead8 (s : String) (t : List Char)
    (heq : s.data = '8' :: t) (hall : s.data.all Char.isDigit = true)
    (h11 : s.data.length = 11) :
    normalize_number s = .ok (70000000000 + digitsToNat t) := by
  have hd := digitsOnly_of_all s hall
  rw [heq] at hall
  simp only [List.all_cons, Bool.and_eq_true] at hall
  have htl : t.length = 10 := by
    rw [heq] at h11
    simpa using h11
  have hq8 : digitsToNat ('8' :: t) / 10000000000 = 8 := by
    rw [(digitsToNat_head '8' t hall.2 htl).1]
    decide
  have hm : digitsToNat ('8' :: t) % 10000000000 = digitsToNat t :=
    (digitsToNat_head '8' t hall.2 htl).2
  unfold normalize_number
  rw [hd]
  dsimp only
  rw [h11]
  dsimp only
  rw [heq, hq8, hm]
  norm_num

/-- Eleven sanitized digits with any other leading digit are rejected. -/
theorem normalize_len11_other (s : String) (c : Char) (t : List Char)
    (heq : s.data = c :: t) (hall : s.data.all Char.isDigit = true)
    (h11 : s.data.length = 11) (h7 : c ≠ '7') (h8 : c ≠ '8') :
    normalize_number s = .error RouteError.InvalidFormat := by
  have hd := digitsOnly_of_all s hall
  rw [heq] at hall
  simp only [List.all_cons, Bool.and_eq_true] at hall
  have htl : t.length = 10 := by
    rw [heq] at h11
    simpa using h11
  have hq := (digitsToNat_head c t hall.2 htl).1
  have hcb := isDigit_toNat hall.1
  have hc7 : c.toNat ≠ 55 := by
    intro hc
    apply h7
    rw [char_eq_ofNat hc]
  have hc8 : c.toNat ≠ 56 := by
    intro hc
    apply h8
    rw [char_eq_ofNat hc]
  unfold normalize_number
  rw [hd]
  dsimp only
  rw [h11]
  dsimp only
  rw [heq, hq]
  have g7 : c.toNat - 48 ≠ 7 := by omega
  have g8 : c.toNat - 48 ≠ 8 := by omega
  rw [if_neg g7, if_neg g8]

/-- Any sanitized length other than 3, 6 or 11 is rejected. -/
theorem normalize_other_len (s : String)
    (h3 : (digitsOnly s).length ≠ 3) (h6 : (digitsOnly s).length ≠ 6)
    (h11 : (digitsOnly s).length ≠ 11) :
    normalize_number s = .error RouteError.InvalidFormat := by
  unfold normalize_number
  dsimp only
  split
  · omega
  · omega
  · omega
  · rfl

/-! ### Claim theorems -/

/-- C1 counterexample: the sanitized 10-digit string "4951234567" is
rejected with `InvalidFormat`, contradicting the claim that length-10
input is accepted (prefixed with the national trunk digit 7). -/
theorem normalize_ten_digit_rejected :
    "4951234567".data.all Char.isDigit = true ∧
    "4951234567".length = 10 ∧
    ¬ ∃ v, normalize_number "4951234567" = Except.ok v := by
  refine ⟨by decide, by decide, ?_⟩
  rintro ⟨v, hv⟩
  have h : normalize_number "4951234567" = Except.error RouteError.InvalidFormat := by
    decide
  rw [h] at hv
  exact Except.noConfusion hv

/-- C1 (amended): for every sanitized digit string, `normalize_number`
returns a value exactly when the length is 3, 6, or 11 with leading
digit 7 or 8: length 3 passes through unchanged, length 6 is prefixed
with the fixed local area code 73843, length 11 starting with 7 passes
through, length 11 starting with 8 has the leading 8 replaced by 7, and
every other length (length 10 included) or other 11-digit leading digit
is rejected with `InvalidFormat`. -/
theorem normalize_length_cases (s : String)
    (hall : s.data.all Char.isDigit = true) :
    (s.length = 3 → normalize_number s = .ok (digitsToNat s.data)) ∧
    (s.length = 6 → normalize_number s = .ok (73843000000 + digitsToNat s.data)) ∧
    (∀ t, s.length = 11 → s.data = '7' :: t →
      normalize_number s = .ok (digitsToNat s.data)) ∧
    (∀ t, s.length = 11 → s.data = '8' :: t →
      normalize_number s = .ok (70000000000 + digitsToNat t)) ∧
    (∀ c t, s.length = 11 → s.data = c :: t → c ≠ '7' → c ≠ '8' →
      normalize_number s = .error RouteError.InvalidFormat) ∧
    (s.length ≠ 3 → s.length ≠ 6 → s.length ≠ 11 →
      normalize_number s = .error RouteError.InvalidFormat) := by
  have hlen := string_length_data s
  have hdl := digitsOnly_of_all s hall
  refine ⟨?_, ?_, ?_, ?_, ?_, ?_⟩
  · intro h3
    rw [hlen] at h3
    exact normalize_len3 s hall h3
  · intro h6
    rw [hlen] at h6
    exact normalize_len6 s hall h6
  · intro t h11 heq
    rw [hlen] at h11
    exact normalize_len11_lead7 s t heq hall h11
  · intro t h11 heq
    rw [hlen] at h11
    exact normalize_len11_lead8 s t heq hall h11
  · intro c t h11 heq h7 h8
    rw [hlen] at h11
    exact normalize_len11_other s c t heq hall h11 h7 h8
  · intro h3 h6 h11
    rw [hlen] at h3 h6 h11
    rw [← hdl] at h3 h6 h11
    exact normalize_other_len s h3 h6 h11

/-- Witness for the amended C1 at the concrete input "104". -/
theorem normalize_length_cases_witness :
    "104".data.all Char.isDigit = true ∧ "104".length = 3 ∧
    normalize_number "104" = Except.ok 104 :=
  ⟨by decide, by decide,
   ((normalize_length_cases "104" (by decide)).1 (by decide)).trans (by decide)⟩

/-- C2 counterexample: dispatching the outbound call "4951234567" from
caller 501 produces no successful response at all, contradicting the
claimed `External(74951234567)` outcome with trunk 79235253998. -/
theorem outbound_ten_digit_no_external :
    ¬ ∃ r, dispatch_route "4951234567" 501 CallType.Normalized = Except.ok r := by
  rintro ⟨r, hr⟩
  have h : dispatch_route "4951234567" 501 CallType.Normalized
      = Except.error RouteError.InvalidFormat := by decide
  rw [h] at hr
  exact Except.noConfusion hr

/-- C2 (amended): the outbound call "4951234567" (10 digits) from
caller 501 fails with `InvalidFormat`: the normalizer has no length-10
rule, so no normalization, no table lookup and no external route with a
trunk happen. -/
theorem outbound_ten_digit_invalid_format :
    dispatch_route "4951234567" 501 CallType.Normalized
      = Except.error RouteError.InvalidFormat := by
  decide

/-- C3 counterexample: with caller extension 999, which has no entry in
`EXTENSION_TRUNK_MAP`, building the response for an External target
does not succeed, contradicting the claimed non-fatal policy. -/
theorem missing_trunk_not_ok :
    trunkLookup 999 = none ∧
    ¬ ∃ r, make_response (RouteTarget.External 74951234567) 999 = Except.ok r := by
  refine ⟨by decide, ?_⟩
  rintro ⟨r, hr⟩
  have h : make_response (RouteTarget.External 74951234567) 999
      = Except.error RouteError.NoTrunkAvailable := by decide
  rw [h] at hr
  exact Except.noConfusion hr

/-- C3 (amended): when an outbound resolution yields an External target
and the caller extension has no entry in the extension-to-trunk
table, the call fails with `NoTrunkAvailable`: a missing trunk mapping
is fatal for external calls, never a success without a trunk. -/
theorem missing_trunk_fatal (n ext : Nat) (h : trunkLookup ext = none) :
    make_response (RouteTarget.External n) ext
      = Except.error RouteError.NoTrunkAvailable := by
  unfold make_response
  rw [h]

/-- Witness for the amended C3 at extension 0 (an unknown caller). -/
theorem missing_trunk_fatal_witness :
    trunkLookup 0 = none ∧
    make_response (RouteTarget.External 74951234567) 0
      = Except.error RouteError.NoTrunkAvailable :=
  ⟨by decide, missing_trunk_fatal 74951234567 0 (by decide)⟩

/-- C4: outbound resolution order for a normalized number: a hit in the
number-to-extension table yields `Internal(ext)` whatever the original
length class of the number; a miss on a number below 1000 (a 3-digit short code)
is the `ShortNumberNotMapped` failure, never an external route; a miss
on any larger number yields `External(num)`. -/
theorem route_normalized_order (num caller : Nat) :
    (∀ ext, numberLookup num = some ext →
      route_normalized num caller = .ok (RouteTarget.Internal ext)) ∧
    (numberLookup num = none → num < 1000 →
      route_normalized num caller = .error RouteError.ShortNumberNotMapped) ∧
    (numberLookup num = none → 1000 ≤ num →
      route_normalized num caller = .ok (RouteTarget.External num)) := by
  refine ⟨fun ext h => ?_, fun h hlt => ?_, fun h hge => ?_⟩
  · unfold route_normalized
    rw [h]
  · unfold route_normalized
    rw [h]
    dsimp only
    rw [if_pos hlt]
  · unfold route_normalized
    rw [h]
    dsimp only
    rw [if_neg (by omega)]

/-- Witness for C4: the short code 999 is unmapped and fails, while 104
is mapped to extension 501. -/
theorem route_normalized_order_witness :
    numberLookup 999 = none ∧ (999 : Nat) < 1000 ∧
    route_normalized 999 501 = Except.error RouteError.ShortNumberNotMapped ∧
    numberLookup 104 = some 501 ∧
    route_normalized 104 0 = Except.ok (RouteTarget.Internal 501) :=
  ⟨by decide, by decide,
   (route_normalized_order 999 501).2.1 (by decide) (by decide),
   by decide, (route_normalized_order 104 0).1 501 (by decide)⟩

/-- C5: the inbound direction parses the received number and looks it
up directly in the number-to-extension table (no normalization):
dialing "79235254061" yields Internal 502 with SUCCESS; every parsed
inbound number that matches the table yields a successful Internal
response; every successful inbound resolution comes from a direct
lookup hit and targets an internal extension, never an external one; a
parsed number absent from the table is the hard failure
`NoRouteFound`. -/
theorem inbound_direct_lookup :
    (dispatch_route "79235254061" 0 CallType.Inbound =
      Except.ok { status := "SUCCESS", is_internal_dest := "TRUE",
                  target := RouteTarget.Internal 502, outbound_trunk := none }) ∧
    (∀ s ext n e, parse_u64 s = some n → numberLookup n = some e →
      dispatch_route s ext CallType.Inbound = Except.ok
        { status := STATUS_SUCCESS, is_internal_dest := INTERNAL_TRUE,
          target := RouteTarget.Internal e, outbound_trunk := none }) ∧
    (∀ s ext r, dispatch_route s ext CallType.Inbound = Except.ok r →
      ∃ n e, parse_u64 s = some n ∧ numberLookup n = some e ∧
        r.target = RouteTarget.Internal e) ∧
    (∀ s ext n, parse_u64 s = some n → numberLookup n = none →
      dispatch_route s ext CallType.Inbound = Except.error RouteError.NoRouteFound) := by
  refine ⟨by decide, ?_, ?_, ?_⟩
  · intro s ext n e hp hl
    have hri : route_inbound n = some (RouteTarget.Internal e) := by
      unfold route_inbound
      rw [hl]
      rfl
    unfold dispatch_route
    dsimp only
    rw [hp]
    dsimp only
    rw [hri]
    rfl
  · intro s ext r h
    unfold dispatch_route at h
    dsimp only at h
    cases hp : parse_u64 s with
    | none =>
      rw [hp] at h
      exact Except.noConfusion h
    | some n =>
      rw [hp] at h
      dsimp only at h
      cases hl : numberLookup n with
      | none =>
        have hri : route_inbound n = none := by
          unfold route_inbound
          rw [hl]
          rfl
        rw [hri] at h
        exact Except.noConfusion h
      | some e =>
        have hri : route_inbound n = some (RouteTarget.Internal e) := by
          unfold route_inbound
          rw [hl]
          rfl
        rw [hri] at h
        dsimp only at h
        unfold make_response at h
        dsimp only at h
        have hr := Except.ok.inj h
        exact ⟨n, e, rfl, hl, by rw [← hr]⟩
  · intro s ext n hp hl
    have hri : route_inbound n = none := by
      unfold route_inbound
      rw [hl]
      rfl
    unfold dispatch_route
    dsimp only
    rw [hp]
    dsimp only
    rw [hri]

/-- Witness for C5: the mapped inbound number 104 resolves to a
successful Internal 501 response, and the parsable but unmapped
inbound number 123 is a hard `NoRouteFound` failure. -/
theorem inbound_direct_lookup_witness :
    parse_u64 "104" = some 104 ∧ numberLookup 104 = some 501 ∧
    dispatch_route "104" 0 CallType.Inbound = Except.ok
      { status := STATUS_SUCCESS, is_internal_dest := INTERNAL_TRUE,
        target := RouteTarget.Internal 501, outbound_trunk := none } ∧
    parse_u64 "123" = some 123 ∧ numberLookup 123 = none ∧
    dispatch_route "123" 0 CallType.Inbound
      = Except.error RouteError.NoRouteFound :=
  ⟨by decide, by decide,
   inbound_direct_lookup.2.1 "104" 0 104 501 (by decide) (by decide),
   by decide, by decide,
   inbound_direct_lookup.2.2.2 "123" 0 123 (by decide) (by decide)⟩

/-- C6: on every 11-character digit string starting with '8',
`normalize_number` succeeds with a value whose leading (11th) digit is
7 and whose trailing 10 digits are identical to the trailing 10
digits of the input. -/
theorem normalize_eight_to_seven (s : String) (t : List Char)
    (hall : s.data.all Char.isDigit = true) (h11 : s.length = 11)
    (heq : s.data = '8' :: t) :
    ∃ v, normalize_number s = Except.ok v ∧
      v / 10000000000 = 7 ∧ v % 10000000000 = digitsToNat t ∧
      digitsToNat t < 10000000000 := by
  have hlen := string_length_data s
  rw [hlen] at h11
  have hv := normalize_len11_lead8 s t heq hall h11
  have hta : t.all Char.isDigit = true := by
    rw [heq] at hall
    simp only [List.all_cons, Bool.and_eq_true] at hall
    exact hall.2
  have htl : t.length = 10 := by
    rw [heq] at h11
    simpa using h11
  have hb : digitsToNat t < 10000000000 := by
    have := digitsToNat_lt t hta
    rw [htl] at this
    norm_num at this
    exact this
  exact ⟨70000000000 + digitsToNat t, hv, by omega, by omega, hb⟩

/-- Witness for C6 at the concrete input "89991234567". -/
theorem normalize_eight_to_seven_witness :
    normalize_number "89991234567" = Except.ok 79991234567 := by
  obtain ⟨v, hv, hdiv, hmod, hlt⟩ :=
    normalize_eight_to_seven "89991234567" "9991234567".data
      (by decide) (by decide) (by decide)
  have ht : digitsToNat "9991234567".data = 9991234567 := by decide
  rw [ht] at hmod
  have : v = 79991234567 := by omega
  rw [← this]
  exact hv

/-- C7: every successfully built response carries the SUCCESS status,
and its internal flag is TRUE exactly when its target is Internal. -/
theorem response_flags_consistent (target : RouteTarget) (ext : Nat)
    (r : AgiResponse) (h : make_response target ext = Except.ok r) :
    r.status = STATUS_SUCCESS ∧
    (r.is_internal_dest = INTERNAL_TRUE ↔ ∃ e, r.target = RouteTarget.Internal e) := by
  cases target with
  | Internal e =>
    unfold make_response at h
    have hr := Except.ok.inj h
    rw [← hr]
    exact ⟨rfl, by simp⟩
  | External m =>
    unfold make_response at h
    cases hl : trunkLookup ext with
    | none =>
      rw [hl] at h
      exact Except.noConfusion h
    | some trunk =>
      rw [hl] at h
      dsimp only at h
      have hr := Except.ok.inj h
      rw [← hr]
      constructor
      · rfl
      · constructor
        · intro hTF
          have hbad : INTERNAL_FALSE = INTERNAL_TRUE := hTF
          exact absurd hbad (by decide)
        · rintro ⟨e, he⟩
          exact RouteTarget.noConfusion he

/-- Witness for C7 on an internal target built for caller 7. -/
theorem response_flags_consistent_witness :
    make_response (RouteTarget.Internal 501) 7 = Except.ok
      { status := "SUCCESS", is_internal_dest := "TRUE",
        target := RouteTarget.Internal 501, outbound_trunk := none } ∧
    ({ status := "SUCCESS", is_internal_dest := "TRUE",
       target := RouteTarget.Internal 501,
       outbound_trunk := none : AgiResponse }.status = STATUS_SUCCESS ∧
     ({ status := "SUCCESS", is_internal_dest := "TRUE",
        target := RouteTarget.Internal 501,
        outbound_trunk := none : AgiResponse }.is_internal_dest = INTERNAL_TRUE ↔
      ∃ e, ({ status := "SUCCESS", is_internal_dest := "TRUE",
              target := RouteTarget.Internal 501,
              outbound_trunk := none : AgiResponse }).target
        = RouteTarget.Internal e)) :=
  ⟨by decide,
   response_flags_consistent (RouteTarget.Internal 501) 7 _ (by decide)⟩

/-- C8: every (extension, trunk) pair of `EXTENSION_TRUNK_MAP` round
trips through the tables: the trunk number maps back to that same
extension in `NUMBER_MAPPING`, outbound resolution of the trunk number
yields `Internal(extension)`, and an external response built for that
extension carries exactly that trunk. -/
theorem trunk_table_round_trip (ext trunk : Nat)
    (h : (ext, trunk) ∈ EXTENSION_TRUNK_MAP) :
    numberLookup trunk = some ext ∧
    (∀ caller, route_normalized trunk caller
      = Except.ok (RouteTarget.Internal ext)) ∧
    (∀ n, make_response (RouteTarget.External n) ext = Except.ok
      { status := STATUS_SUCCESS, is_internal_dest := INTERNAL_FALSE,
        target := RouteTarget.External n, outbound_trunk := some trunk }) := by
  fin_cases h <;>
    exact ⟨by decide, fun caller => rfl, fun n => rfl⟩

/-- Witness for C8 at the pair (501, 79235253998). -/
theorem trunk_table_round_trip_witness :
    (501, 79235253998) ∈ EXTENSION_TRUNK_MAP ∧
    numberLookup 79235253998 = some 501 ∧
    route_normalized 79235253998 501 = Except.ok (RouteTarget.Internal 501) :=
  ⟨by decide, (trunk_table_round_trip 501 79235253998 (by decide)).1,
   (trunk_table_round_trip 501 79235253998 (by decide)).2.1 501⟩

/-- C9: normalization first discards every non-digit character and then
depends only on the remaining digit sequence — two raw inputs with the
same digit subsequence normalize identically — and an input with no
digit characters is rejected with `InvalidFormat`. -/
theorem sanitize_digits_only (s u : String) :
    (digitsOnly s = digitsOnly u → normalize_number s = normalize_number u) ∧
    (digitsOnly s = [] → normalize_number s = Except.error RouteError.InvalidFormat) := by
  constructor
  · intro h
    unfold normalize_number
    rw [h]
  · intro h
    exact normalize_other_len s (by rw [h]; decide) (by rw [h]; decide)
      (by rw [h]; decide)

/-- Witness for C9: "1a0b4" and "+1 0-4" share the digit subsequence
104 and normalize identically; "abc" holds no digits and is rejected. -/
theorem sanitize_digits_only_witness :
    digitsOnly "1a0b4" = digitsOnly "+1 0-4" ∧
    normalize_number "1a0b4" = normalize_number "+1 0-4" ∧
    digitsOnly "abc" = [] ∧
    normalize_number "abc" = Except.error RouteError.InvalidFormat :=
  ⟨by decide, (sanitize_digits_only "1a0b4" "+1 0-4").1 (by decide),
   by decide, (sanitize_digits_only "abc" "xyz").2 (by decide)⟩

/-- C10: a successfully built response whose target is External always
carries a present outbound trunk; an `Ok` response never pairs an
External target with an absent trunk, so the output path that reports
an external route with no trunk is unreachable. -/
theorem ok_external_has_trunk (target : RouteTarget) (ext : Nat)
    (r : AgiResponse) (h : make_response target ext = Except.ok r)
    (n : Nat) (ht : r.target = RouteTarget.External n) :
    ∃ trunk, r.outbound_trunk = some trunk := by
  cases target with
  | Internal e =>
    unfold make_response at h
    have hr := Except.ok.inj h
    rw [← hr] at ht
    exact absurd ht (by intro hc; exact RouteTarget.noConfusion hc)
  | External m =>
    unfold make_response at h
    cases hl : trunkLookup ext with
    | none =>
      rw [hl] at h
      exact Except.noConfusion h
    | some trunk =>
      rw [hl] at h
      dsimp only at h
      have hr := Except.ok.inj h
      exact ⟨trunk, by rw [← hr]⟩

/-- Witness for C10: an external call from extension 501 yields a
response carrying trunk 79235253998. -/
theorem ok_external_has_trunk_witness :
    make_response (RouteTarget.External 74951234567) 501 = Except.ok
      { status := "SUCCESS", is_internal_dest := "FALSE",
        target := RouteTarget.External 74951234567,
        outbound_trunk := some 79235253998 } ∧
    ∃ trunk, ({ status := "SUCCESS", is_internal_dest := "FALSE",
                target := RouteTarget.External 74951234567,
                outbound_trunk := some 79235253998 : AgiResponse }).outbound_trunk
      = some trunk :=
  ⟨by decide,
   ok_external_has_trunk (RouteTarget.External 74951234567) 501 _ (by decide)
     74951234567 (by decide)⟩
